import Mathlib

/-!
Verification of the support layer in modbus_tk/utils.py: the CRC16 checksum,
the RTU inter-character delay helper, the thread-safety wrapper
threadsafe_function, the WorkerThread lifecycle, and the SerialSocketEmulator
(serial-over-TCP adapter).

Modelling conventions:
- bytes are Nat values below 256; byte strings are List Nat;
- Python exceptions are modelled with Except String / PyResult: an
  Except.error or PyResult.exn value is an exception propagating to the
  caller, Except.ok / PyResult.val is a normal return;
- the operating system socket is an oracle function supplied as an argument
  (whether data is pending at each poll, what recv returns, how many bytes
  send accepts);
- unbounded while loops are given explicit fuel; a result of none means the
  fuel ran out before the loop ended, some r means the loop really ended
  with outcome r, so every theorem about some-results speaks about genuine
  terminating executions of the loop.
-/

namespace ModbusTk

/-! ## Checksum engine (swap_bytes, calculate_crc) -/

/-- Source swap_bytes: swap lsb and msb of a word. -/
def swap_bytes (word_val : Nat) : Nat :=
  let msb := word_val >>> 8
  let lsb := word_val % 256
  (lsb <<< 8) + msb

/-- Source inner loop body of calculate_crc: one of the 8 shift rounds. -/
def crcRound (crc : Nat) : Nat :=
  let tmp := crc &&& 1
  let crc2 := crc >>> 1
  if tmp = 1 then crc2 ^^^ 0xA001 else crc2

/-- Apply n shift rounds in sequence (the for j in xrange(8) loop). -/
def crcRounds : Nat → Nat → Nat
  | 0, crc => crc
  | n + 1, crc => crcRounds n (crcRound crc)

/-- Source per-byte step of calculate_crc: crc = crc ^ ord(i), then 8 rounds. -/
def crcByte (crc b : Nat) : Nat :=
  crcRounds 8 (crc ^^^ b)

/-- Source calculate_crc: accumulator starts at 0xFFFF, one crcByte step per
input byte, and the two bytes of the result are swapped at the end. -/
def calculate_crc (data : List Nat) : Nat :=
  swap_bytes (data.foldl crcByte 0xFFFF)

/-- Spec-side byte step: XOR the byte into the low byte of the accumulator
only, leaving the high bits untouched (the wording of the claim). -/
def specXorLowByte (acc b : Nat) : Nat :=
  ((acc >>> 8) <<< 8) ||| ((acc % 256) ^^^ b)

/-- Spec-side per-byte step: low-byte XOR then the same 8 shift rounds. -/
def specCrcByte (acc b : Nat) : Nat :=
  crcRounds 8 (specXorLowByte acc b)

/-- Spec-side final step: swap the high and low bytes of the accumulator
(low byte of the result = high byte of the accumulator, and vice versa). -/
def specSwap (acc : Nat) : Nat :=
  (acc % 256) * 256 + (acc >>> 8)

/-- The checksum algorithm exactly as the claim words it. -/
def crc_spec (data : List Nat) : Nat :=
  specSwap (data.foldl specCrcByte 0xFFFF)

/-! ## Inter-character delay helper -/

/-- Source calculate_rtu_inter_char, over exact rationals. -/
def calculate_rtu_inter_char (baudrate : ℚ) : ℚ :=
  if baudrate ≤ 19200 then 11 / baudrate else 0.0005

/-! ## Python control flow helpers -/

/-- Outcome of running a Python block: a value or a propagating exception. -/
inductive PyResult (α : Type) where
  | val (a : α)
  | exn (e : String)
deriving DecidableEq

/-- Python try/finally semantics: an exception raised by the finally block
replaces the outcome of the protected block; otherwise the protected block
outcome stands. -/
def pyFinally {α : Type} (r : PyResult α) (cleanup : PyResult Unit) : PyResult α :=
  match cleanup with
  | .val _ => r
  | .exn e => .exn e

/-! ## threadsafe_function -/

/-- Model of the closure built by threadsafe_function around fcn. The lock is
threaded explicitly: lockHeld is its state when the call starts, and the Bool
in the result is its state when the call returns or raises. A call that finds
the lock held blocks (none) until the holder releases. The body mirrors the
source: acquire, run fcn, on exception re-raise the same exception, and
release the lock in the finally on every exit path. -/
def threadsafe_call {α : Type} (lockHeld : Bool) (fcn : PyResult α) :
    Option (PyResult α × Bool) :=
  if lockHeld then none
  else
    let body : PyResult α :=
      match fcn with
      | .val v => .val v
      | .exn e => .exn e
    some (body, false)

/-! ## flush_socket and SerialSocketEmulator.flushInput -/

/-- How a run of flush_socket ends: the select poll reported no more data
(drained, loop break) or the iteration bound was hit and the function raised
(limitHit). drains counts calls to sock.recv. -/
inductive FlushEnd where
  | drained (drains : Nat)
  | limitHit (drains : Nat) (msg : String)
deriving DecidableEq

/-- Number of recv drain attempts a flush run performed. -/
def FlushEnd.drainCount : FlushEnd → Nat
  | .drained d => d
  | .limitHit d _ => d

/-- Source flush_socket loop. pending k tells whether the select poll before
the k-th potential drain reports readable data. drains and cnt both start at
0; cnt is the source counter, only incremented when lim is positive. -/
def flushLoop (pending : Nat → Bool) (lim : Nat) : Nat → Nat → Nat → Option FlushEnd
  | _, _, 0 => none
  | drains, cnt, fuel + 1 =>
    if pending drains then
      if 0 < lim then
        if lim ≤ cnt + 1 then
          some (.limitHit (drains + 1) "flush_socket: maximum number of iterations reached")
        else flushLoop pending lim (drains + 1) (cnt + 1) fuel
      else flushLoop pending lim (drains + 1) cnt fuel
    else some (.drained drains)

/-- Source flush_socket entry point. -/
def flush_socket (pending : Nat → Bool) (lim fuel : Nat) : Option FlushEnd :=
  flushLoop pending lim 0 0 fuel

/-- What the caller of flushInput observes. raisedToCaller is the exception
escaping flushInput, if any; reconnected records whether self.open() was
attempted from the except handler. -/
structure FlushInputRes where
  raisedToCaller : Option String
  reconnected : Bool
  drains : Nat
deriving DecidableEq

/-- Source SerialSocketEmulator.flushInput: runs flush_socket(self._sock, 3)
inside try; the except Exception handler catches anything flush_socket
raises, logs it and calls self.open() to reconnect; flushInput itself
returns normally on every path. -/
def SerialSocketEmulator.flushInput (pending : Nat → Bool) (fuel : Nat) :
    Option FlushInputRes :=
  match flush_socket pending 3 fuel with
  | none => none
  | some (.drained d) => some { raisedToCaller := none, reconnected := false, drains := d }
  | some (.limitHit d _) => some { raisedToCaller := none, reconnected := true, drains := d }

/-! ## SerialSocketEmulator.read -/

/-- What self._sock.recv(bufsize) does: return bytes, raise socket.error, or
raise some other exception (for instance AttributeError when _sock is None). -/
inductive RecvOutcome where
  | data (bytes : List Nat)
  | sockErr (msg : String)
  | otherErr (msg : String)

/-- Source SerialSocketEmulator.read: try recv; except socket.error logs a
warning, except Exception logs an error; both fall through to return the
empty string. A missing handle (sock = none) raises AttributeError inside
the try, caught by the generic handler. The Except layer is the exception
channel to the caller: read never produces Except.error. -/
def SerialSocketEmulator.read (sock : Option (Nat → RecvOutcome)) (bufsize : Nat) :
    Except String (List Nat) :=
  match sock with
  | none => Except.ok []
  | some recv =>
    match recv bufsize with
    | .data bs => Except.ok bs
    | .sockErr _ => Except.ok []
    | .otherErr _ => Except.ok []

/-! ## SerialSocketEmulator.write -/

/-- What one self._sock.send(...) call does: accept n bytes, raise
socket.error, or raise some other exception. -/
inductive SendOutcome where
  | sent (n : Nat)
  | sockErr (msg : String)
  | otherErr (msg : String)

/-- Source send loop of write. send is the socket oracle: given the call
index and the number of remaining bytes (the suffix string[bytesReallySent:]
passed to send), it answers how many bytes were accepted or raises. Returns
the final bytesReallySent on normal loop exit, or the propagating
exception. -/
def writeLoop (send : Nat → Nat → SendOutcome) (len : Nat) :
    Nat → Nat → Nat → Option (Except String Nat)
  | _, _, 0 => none
  | sentSoFar, k, fuel + 1 =>
    if sentSoFar < len then
      match send k (len - sentSoFar) with
      | .sent n => writeLoop send len (sentSoFar + n) (k + 1) fuel
      | .sockErr m => some (.error m)
      | .otherErr m => some (.error m)
    else some (.ok sentSoFar)

/-- Source SerialSocketEmulator.write: the send loop runs inside try; both
except handlers log and fall through, so write returns None (here Unit, with
no byte count) on every path and never raises. -/
def SerialSocketEmulator.write (send : Nat → Nat → SendOutcome) (len fuel : Nat) :
    Option (Except String Unit) :=
  match writeLoop send len 0 0 fuel with
  | none => none
  | some (.ok _) => some (.ok ())
  | some (.error _) => some (.ok ())

/-! ## SerialSocketEmulator open / isOpen -/

/-- The connection handle: present or absent, and whether connect succeeded. -/
structure SockHandle where
  connected : Bool
deriving DecidableEq

/-- Adapter connection state: self._sock. -/
structure AdapterState where
  sock : Option SockHandle
deriving DecidableEq

/-- Source SerialSocketEmulator.open (open is a Lean keyword, hence openSock):
closes any existing handle, stores a fresh socket and tries to connect;
a connect failure is only logged, the fresh handle stays stored. -/
def SerialSocketEmulator.openSock (connectOk : Bool) (_s : AdapterState) : AdapterState :=
  { sock := some { connected := connectOk } }

/-- Source SerialSocketEmulator.isOpen: always returns False. -/
def SerialSocketEmulator.isOpen (_s : AdapterState) : Bool :=
  false

/-! ## WorkerThread -/

/-- Inputs of one WorkerThread run. init_fct and exit_fct are the optional
callables with the outcome their single call would produce; main_fct k is the
outcome of the k-th call of the main callable; goFlag k is the value
self._go.isSet() reads before the k-th loop iteration. -/
structure WorkerCfg where
  init_fct : Option (Except String Unit)
  main_fct : Nat → Except String Unit
  goFlag : Nat → Bool
  exit_fct : Option (Except String Unit)

/-- Source while loop of WorkerThread._run, from flag check k on: while
self._go.isSet(): self._fcts[1](*args). Returns the number of main calls
made and how control left the loop (normal break on a false flag, or an
exception from main). -/
def runLoop (go : Nat → Bool) (main_fct : Nat → Except String Unit) :
    Nat → Nat → Option (Nat × PyResult Unit)
  | _, 0 => none
  | k, fuel + 1 =>
    if go k then
      match main_fct k with
      | .ok _ =>
        match runLoop go main_fct (k + 1) fuel with
        | none => none
        | some (n, r) => some (n + 1, r)
      | .error e => some (1, .exn e)
    else some (0, .val ())

/-- The try block of WorkerThread._run: run init_fct once if provided, then
the main loop. Returns (init calls, main calls, control outcome). -/
def tryBlock (cfg : WorkerCfg) (fuel : Nat) : Option (Nat × Nat × PyResult Unit) :=
  match cfg.init_fct with
  | none => (runLoop cfg.goFlag cfg.main_fct 0 fuel).map (fun p => (0, p.1, p.2))
  | some (.error e) => some (1, 0, .exn e)
  | some (.ok _) => (runLoop cfg.goFlag cfg.main_fct 0 fuel).map (fun p => (1, p.1, p.2))

/-- Everything observable about one completed WorkerThread._run execution. -/
structure RunTrace where
  initCalls : Nat
  mainCalls : Nat
  logged : Option String
  exitCalls : Nat
  raised : Option String
deriving DecidableEq

/-- Assemble the observable trace of one completed _run execution from the
try-block outcome t: the except Exception handler logs the try-block
exception and swallows it; the finally block invokes exit_fct exactly once
when provided; by pyFinally, an exception raised by exit_fct replaces the
(already handled) outcome and is the only one that can escape _run. -/
def mkTrace (cfg : WorkerCfg) (t : Nat × Nat × PyResult Unit) : RunTrace :=
  let logged : Option String := match t.2.2 with | .exn e => some e | .val _ => none
  let exitRes : PyResult Unit :=
    match cfg.exit_fct with
    | none => .val ()
    | some (.ok _) => .val ()
    | some (.error e) => .exn e
  let overall : PyResult Unit := pyFinally (.val ()) exitRes
  { initCalls := t.1
    mainCalls := t.2.1
    logged := logged
    exitCalls := if cfg.exit_fct.isSome then 1 else 0
    raised := match overall with | .exn e => some e | .val _ => none }

/-- Source WorkerThread._run: try (init then loop) / except Exception (log) /
finally (run exit_fct if provided). raised is the exception escaping _run,
if any. -/
def WorkerThread.runBody (cfg : WorkerCfg) (fuel : Nat) : Option RunTrace :=
  (tryBlock cfg fuel).map (mkTrace cfg)

/-- Externally visible thread state used by stop: whether the thread is alive
and whether the go event is set. -/
structure WorkerObj where
  alive : Bool
  goSet : Bool
deriving DecidableEq

/-- Source WorkerThread.stop: if self._thread.isAlive(): clear the go event
and join. Returns the state afterwards and whether a join (blocking until
the thread terminated) happened. When the thread is not alive, nothing is
touched. -/
def WorkerThread.stop (w : WorkerObj) : WorkerObj × Bool :=
  if w.alive then ({ alive := false, goSet := false }, true)
  else (w, false)

/-- The effect of self._go.clear() on the flag environment the worker thread
will observe: every later isSet() check reads false. -/
def clearGo (cfg : WorkerCfg) : WorkerCfg :=
  { cfg with goFlag := fun _ => false }

/-! ## Helper lemmas -/

-- XOR with a byte only touches the low 8 bits of the accumulator.
theorem specXorLowByte_eq (acc b : Nat) (hb : b < 256) :
    specXorLowByte acc b = acc ^^^ b := by
  have h256 : (256 : Nat) = 2 ^ 8 := rfl
  unfold specXorLowByte
  apply Nat.eq_of_testBit_eq
  intro i
  rcases Nat.lt_or_ge i 8 with hi | hi
  · have hmod : (acc % 256).testBit i = acc.testBit i := by
      rw [h256, Nat.testBit_mod_two_pow]; simp [hi]
    simp [Nat.testBit_or, Nat.testBit_shiftLeft, Nat.testBit_xor, hmod,
      Nat.not_le.mpr hi]
  · have hpow : (256 : Nat) ≤ 2 ^ i := by
      rw [h256]; exact Nat.pow_le_pow_right (by norm_num) hi
    have hbf : b.testBit i = false :=
      Nat.testBit_lt_two_pow (lt_of_lt_of_le hb hpow)
    have hmodf : (acc % 256).testBit i = false :=
      Nat.testBit_lt_two_pow (lt_of_lt_of_le (Nat.mod_lt _ (by norm_num)) hpow)
    simp [Nat.testBit_or, Nat.testBit_shiftLeft, Nat.testBit_xor, hi, hbf, hmodf,
      Nat.testBit_shiftRight, Nat.add_sub_cancel' hi]

-- The two per-byte steps agree on genuine bytes.
theorem specCrcByte_eq (acc b : Nat) (hb : b < 256) :
    specCrcByte acc b = crcByte acc b := by
  unfold specCrcByte crcByte
  rw [specXorLowByte_eq acc b hb]

-- Folding two functions that agree on bytes gives the same result on byte
-- lists, whatever the starting accumulator.
theorem foldl_congr_bounded (f g : Nat → Nat → Nat)
    (hfg : ∀ a b, b < 256 → f a b = g a b) :
    ∀ (data : List Nat), (∀ b ∈ data, b < 256) →
    ∀ acc : Nat, List.foldl f acc data = List.foldl g acc data
  | [], _, _ => rfl
  | x :: xs, h, acc => by
    show List.foldl f (f acc x) xs = List.foldl g (g acc x) xs
    rw [hfg acc x (h x (List.mem_cons_self x xs))]
    exact foldl_congr_bounded f g hfg xs
      (fun b hb => h b (List.mem_cons_of_mem x hb)) (g acc x)

theorem foldl_crc_eq (data : List Nat) (h : ∀ b ∈ data, b < 256) (acc : Nat) :
    data.foldl specCrcByte acc = data.foldl crcByte acc :=
  foldl_congr_bounded specCrcByte crcByte specCrcByte_eq data h acc

theorem swap_bytes_eq_specSwap (w : Nat) : swap_bytes w = specSwap w := by
  unfold swap_bytes specSwap
  simp [Nat.shiftLeft_eq]

/-! ## Claim theorems -/

/-- Claim C1: for every finite byte sequence, calculate_crc computes exactly
the algorithm described by the spec: accumulator starting at 0xFFFF, each
byte XOR-ed into the low byte of the accumulator followed by 8 conditional
shift rounds, and a final swap of the high and low accumulator bytes; the
empty sequence yields the byte-swapped form of 0xFFFF, and the function is a
total Lean function over any finite byte list. -/
theorem calculate_crc_meets_spec (data : List Nat) (h : ∀ b ∈ data, b < 256) :
    calculate_crc data = crc_spec data ∧ calculate_crc [] = swap_bytes 0xFFFF := by
  constructor
  · unfold calculate_crc crc_spec
    rw [foldl_crc_eq data h 0xFFFF, swap_bytes_eq_specSwap]
  · rfl

/-- Concrete run of calculate_crc_meets_spec on the byte string 123456789,
the standard CRC16 test vector. -/
theorem calculate_crc_meets_spec_witness :
    calculate_crc [49, 50, 51, 52, 53, 54, 55, 56, 57] =
      crc_spec [49, 50, 51, 52, 53, 54, 55, 56, 57] ∧
    calculate_crc [] = swap_bytes 0xFFFF :=
  calculate_crc_meets_spec [49, 50, 51, 52, 53, 54, 55, 56, 57] (by decide)

/-- Claim C6: every call through the closure built by threadsafe_function
returns the wrapped callable's outcome unchanged — its value on normal
return, its exception re-raised to the caller — and the lock is released on
both exit paths (the Bool component, the lock state at exit, is false). -/
theorem threadsafe_call_spec {α : Type} (fcn : PyResult α) :
    threadsafe_call false fcn = some (fcn, false) := by
  cases fcn <;> rfl

/-- Claim C7: calculate_rtu_inter_char returns 11.0 / rate for every rate at
or below 19200 and the fixed 0.0005 above it, with the boundary exactly at
19200 and 19201. -/
theorem calculate_rtu_inter_char_spec (rate : ℚ) :
    (rate ≤ 19200 → calculate_rtu_inter_char rate = 11 / rate) ∧
    (19200 < rate → calculate_rtu_inter_char rate = 0.0005) ∧
    calculate_rtu_inter_char 19200 = 11 / 19200 ∧
    calculate_rtu_inter_char 19201 = 0.0005 := by
  refine ⟨fun h => ?_, fun h => ?_, ?_, ?_⟩
  · simp [calculate_rtu_inter_char, h]
  · simp [calculate_rtu_inter_char, not_le.mpr h]
  · norm_num [calculate_rtu_inter_char]
  · norm_num [calculate_rtu_inter_char]

/-- Concrete run of calculate_rtu_inter_char_spec at rate 9600. -/
theorem calculate_rtu_inter_char_spec_witness :
    (9600 : ℚ) ≤ 19200 ∧ calculate_rtu_inter_char 9600 = 11 / 9600 :=
  ⟨by norm_num, (calculate_rtu_inter_char_spec 9600).1 (by norm_num)⟩

/-- Claim C9: isOpen returns false in every connection state, including
immediately after a successful open. -/
theorem isOpen_always_false (s : AdapterState) :
    SerialSocketEmulator.isOpen s = false ∧
    SerialSocketEmulator.isOpen (SerialSocketEmulator.openSock true s) = false :=
  ⟨rfl, rfl⟩

-- With limit 3, the flush loop never performs more than 3 drain attempts,
-- whatever the select polls report. The counter cnt tracks the number of
-- drains already made, which stays at most 2 while the loop is still going.
theorem flushLoop_drain_bound (pending : Nat → Bool) :
    ∀ fuel d res, d ≤ 2 → flushLoop pending 3 d d fuel = some res →
      res.drainCount ≤ 3 := by
  intro fuel
  induction fuel with
  | zero => intro d res _ h; simp [flushLoop] at h
  | succ fuel ih =>
    intro d res hd h
    unfold flushLoop at h
    by_cases hp : pending d
    · rw [if_pos hp] at h
      rw [if_pos (by norm_num : (0 : Nat) < 3)] at h
      by_cases hl : 3 ≤ d + 1
      · rw [if_pos hl] at h
        injection h with h
        rw [← h]
        simp only [FlushEnd.drainCount]
        omega
      · rw [if_neg hl] at h
        exact ih (d + 1) res (by omega) h
    · rw [if_neg hp] at h
      injection h with h
      rw [← h]
      simp only [FlushEnd.drainCount]
      omega

-- On an always-pending socket, flush_socket with limit 3 drains exactly 3
-- times and then raises the iteration-limit exception.
theorem flush_socket_always_pending (pending : Nat → Bool) (fuel : Nat)
    (hfuel : 3 ≤ fuel) (hp : ∀ k, pending k = true) :
    flush_socket pending 3 fuel =
      some (.limitHit 3 "flush_socket: maximum number of iterations reached") := by
  obtain ⟨f, rfl⟩ : ∃ f, fuel = f + 3 := ⟨fuel - 3, by omega⟩
  show flushLoop pending 3 0 0 (f + 3) = _
  simp [flushLoop, hp 0, hp 1, hp 2]

/-- Claim C2 counterexample: on a socket that always reports pending data,
flushInput returns normally after 3 drain attempts — the iteration-limit
error is caught inside flushInput (which logs it and attempts a reconnect)
and nothing is raised to the caller of flushInput. -/
theorem flushInput_counterexample :
    SerialSocketEmulator.flushInput (fun _ => true) 10 =
      some { raisedToCaller := none, reconnected := true, drains := 3 } ∧
    (SerialSocketEmulator.flushInput (fun _ => true) 10).map FlushInputRes.raisedToCaller ≠
      some (some "flush_socket: maximum number of iterations reached") :=
  ⟨rfl, by decide⟩

/-- Claim C2 (amended): on a socket that continuously reports pending data,
flushInput performs at most (exactly) 3 drain attempts, after which the
drain helper flush_socket raises the iteration-limit error; flushInput
catches that error, logs it and attempts a reconnect via open(), and returns
normally to its own caller rather than looping forever; in general a
terminating flush_socket run with limit 3 makes at most 3 drain attempts. -/
theorem flushInput_bounded (pending : Nat → Bool) (fuel : Nat) (hfuel : 3 ≤ fuel)
    (hp : ∀ k, pending k = true) :
    flush_socket pending 3 fuel =
      some (.limitHit 3 "flush_socket: maximum number of iterations reached") ∧
    SerialSocketEmulator.flushInput pending fuel =
      some { raisedToCaller := none, reconnected := true, drains := 3 } ∧
    (∀ res, flush_socket pending 3 fuel = some res → res.drainCount ≤ 3) := by
  have h1 := flush_socket_always_pending pending fuel hfuel hp
  refine ⟨h1, ?_, ?_⟩
  · unfold SerialSocketEmulator.flushInput
    rw [h1]
  · intro res hres
    unfold flush_socket at hres
    exact flushLoop_drain_bound pending fuel 0 res (by omega) hres

/-- Concrete run of flushInput_bounded on the always-pending socket with the
minimal fuel. -/
theorem flushInput_bounded_witness :
    (3 : Nat) ≤ 3 ∧
    SerialSocketEmulator.flushInput (fun _ => true) 3 =
      some { raisedToCaller := none, reconnected := true, drains := 3 } :=
  ⟨le_refl 3, (flushInput_bounded (fun _ => true) 3 (le_refl 3) (fun _ => rfl)).2.1⟩

/-- Claim C3: read returns the bytes recv produced on success (at most
bufsize of them whenever recv honors its contract), returns the empty result
on a socket-level error or on a never-opened handle, and never lets an
exception reach its caller. -/
theorem read_never_raises (sock : Option (Nat → RecvOutcome)) (bufsize : Nat)
    (hrecv : ∀ recv bs, sock = some recv → recv bufsize = .data bs →
      bs.length ≤ bufsize) :
    (∀ e, SerialSocketEmulator.read sock bufsize ≠ .error e) ∧
    (∀ recv bs, sock = some recv → recv bufsize = .data bs →
      SerialSocketEmulator.read sock bufsize = .ok bs) ∧
    (∀ recv m, sock = some recv → recv bufsize = .sockErr m →
      SerialSocketEmulator.read sock bufsize = .ok []) ∧
    (sock = none → SerialSocketEmulator.read sock bufsize = .ok []) ∧
    (∀ bs, SerialSocketEmulator.read sock bufsize = .ok bs → bs.length ≤ bufsize) := by
  refine ⟨?_, ?_, ?_, ?_, ?_⟩
  · intro e h
    unfold SerialSocketEmulator.read at h
    cases sock with
    | none => simp at h
    | some recv => cases hout : recv bufsize <;> simp [hout] at h
  · intro recv bs hs hd
    subst hs
    simp [SerialSocketEmulator.read, hd]
  · intro recv m hs hd
    subst hs
    simp [SerialSocketEmulator.read, hd]
  · intro hs
    subst hs
    rfl
  · intro bs h
    unfold SerialSocketEmulator.read at h
    cases sock with
    | none =>
      simp at h
      subst h
      simp
    | some recv =>
      cases hout : recv bufsize with
      | data bs2 =>
        simp [hout] at h
        subst h
        exact hrecv recv _ rfl hout
      | sockErr m =>
        simp [hout] at h
        subst h
        simp
      | otherErr m =>
        simp [hout] at h
        subst h
        simp

/-- Concrete run of read_never_raises on a socket whose recv raises
socket.error: the caller sees the empty result, no exception. -/
theorem read_never_raises_witness :
    SerialSocketEmulator.read (some (fun _ => RecvOutcome.sockErr "closed")) 4 =
      Except.ok [] :=
  (read_never_raises (some (fun _ => RecvOutcome.sockErr "closed")) 4
    (fun recv bs hs hd => by
      injection hs with hs
      subst hs
      nomatch hd)).2.2.1 (fun _ => RecvOutcome.sockErr "closed") "closed" rfl rfl

-- If each send call accepts at most the number of bytes it was offered,
-- a send loop that ends normally has accepted exactly the whole payload.
theorem writeLoop_ok_len (send : Nat → Nat → SendOutcome) (len : Nat)
    (hsend : ∀ k rem n, send k rem = .sent n → n ≤ rem) :
    ∀ fuel sentSoFar k n, sentSoFar ≤ len →
      writeLoop send len sentSoFar k fuel = some (.ok n) → n = len := by
  intro fuel
  induction fuel with
  | zero => intro s k n _ h; simp [writeLoop] at h
  | succ fuel ih =>
    intro s k n hle h
    unfold writeLoop at h
    by_cases hlt : s < len
    · rw [if_pos hlt] at h
      cases hs : send k (len - s) with
      | sent m =>
        rw [hs] at h
        have hm := hsend k (len - s) m hs
        exact ih (s + m) (k + 1) n (by omega) h
      | sockErr m => rw [hs] at h; simp at h
      | otherErr m => rw [hs] at h; simp at h
    · rw [if_neg hlt] at h
      simp at h
      omega

/-- Claim C8: when the send loop finishes without error it has handed the
socket exactly the whole payload, looping on partial sends with each
iteration offering the remaining suffix; on a socket error write logs and
returns normally — it never produces an exception for its caller — and
write's return value is Unit on every path, carrying no byte count. -/
theorem write_full_or_silent (send : Nat → Nat → SendOutcome) (len fuel : Nat)
    (hsend : ∀ k rem n, send k rem = .sent n → n ≤ rem) :
    (∀ n, writeLoop send len 0 0 fuel = some (.ok n) → n = len) ∧
    (∀ e, SerialSocketEmulator.write send len fuel ≠ some (.error e)) ∧
    (∀ r, SerialSocketEmulator.write send len fuel = some r → r = .ok ()) := by
  refine ⟨fun n h => writeLoop_ok_len send len hsend fuel 0 0 n (Nat.zero_le len) h,
    ?_, ?_⟩
  · intro e h
    unfold SerialSocketEmulator.write at h
    cases hw : writeLoop send len 0 0 fuel with
    | none => rw [hw] at h; simp at h
    | some r => cases r <;> rw [hw] at h <;> simp at h
  · intro r h
    unfold SerialSocketEmulator.write at h
    cases hw : writeLoop send len 0 0 fuel with
    | none => rw [hw] at h; simp at h
    | some r2 => cases r2 <;> rw [hw] at h <;> simp at h <;> simp [← h]

/-- Concrete run of write_full_or_silent: a socket accepting at most 2 bytes
per call; the payload of 5 bytes goes out over partial sends and no
exception reaches the caller. -/
theorem write_full_or_silent_witness :
    SerialSocketEmulator.write (fun _ rem => SendOutcome.sent (min 2 rem)) 5 10 ≠
      some (Except.error "boom") :=
  (write_full_or_silent (fun _ rem => SendOutcome.sent (min 2 rem)) 5 10
    (fun k rem n h => by injection h with h; omega)).2.1 "boom"

-- A completed _run gives a try-block outcome plus the mkTrace assembly.
theorem runBody_some (cfg : WorkerCfg) (fuel : Nat) (trace : RunTrace)
    (hrun : WorkerThread.runBody cfg fuel = some trace) :
    ∃ t, tryBlock cfg fuel = some t ∧ trace = mkTrace cfg t := by
  unfold WorkerThread.runBody at hrun
  cases htb : tryBlock cfg fuel with
  | none => rw [htb] at hrun; simp at hrun
  | some t =>
    rw [htb] at hrun
    simp at hrun
    exact ⟨t, rfl, hrun.symm⟩

theorem mkTrace_exitCalls (cfg : WorkerCfg) (t : Nat × Nat × PyResult Unit) :
    (mkTrace cfg t).exitCalls = (if cfg.exit_fct.isSome then 1 else 0) := rfl

theorem mkTrace_initCalls (cfg : WorkerCfg) (t : Nat × Nat × PyResult Unit) :
    (mkTrace cfg t).initCalls = t.1 := rfl

theorem mkTrace_mainCalls (cfg : WorkerCfg) (t : Nat × Nat × PyResult Unit) :
    (mkTrace cfg t).mainCalls = t.2.1 := rfl

-- The except handler logs exactly the exception the try block produced.
theorem mkTrace_logged (cfg : WorkerCfg) (t : Nat × Nat × PyResult Unit) :
    (mkTrace cfg t).logged =
      (match t.2.2 with | .exn e => some e | .val _ => none) := rfl

-- When exit_fct does not raise, nothing escapes _run.
theorem mkTrace_raised_none (cfg : WorkerCfg) (t : Nat × Nat × PyResult Unit)
    (h : ∀ e, cfg.exit_fct ≠ some (.error e)) :
    (mkTrace cfg t).raised = none := by
  unfold mkTrace pyFinally
  cases hx : cfg.exit_fct with
  | none => rfl
  | some r =>
    cases r with
    | ok _ => simp
    | error e => exact absurd hx (h e)

-- When exit_fct raises, its exception escapes _run.
theorem mkTrace_raised_exn (cfg : WorkerCfg) (t : Nat × Nat × PyResult Unit)
    (e : String) (h : cfg.exit_fct = some (.error e)) :
    (mkTrace cfg t).raised = some e := by
  unfold mkTrace pyFinally
  rw [h]

-- The try block runs init exactly once when provided, before anything else.
theorem tryBlock_fst (cfg : WorkerCfg) (fuel : Nat) (t : Nat × Nat × PyResult Unit)
    (h : tryBlock cfg fuel = some t) :
    t.1 = (if cfg.init_fct.isSome then 1 else 0) := by
  unfold tryBlock at h
  cases hi : cfg.init_fct with
  | none =>
    rw [hi] at h
    rcases Option.map_eq_some'.mp h with ⟨p, _, hp⟩
    rw [← hp]
    simp
  | some r =>
    cases r with
    | error e =>
      rw [hi] at h
      injection h with h
      rw [← h]
      simp
    | ok u =>
      rw [hi] at h
      rcases Option.map_eq_some'.mp h with ⟨p, _, hp⟩
      rw [← hp]
      simp

-- A failing init means the loop never started: no main calls, and the
-- exception is the try-block outcome.
theorem tryBlock_init_error (cfg : WorkerCfg) (fuel : Nat) (e : String)
    (hi : cfg.init_fct = some (.error e)) (t : Nat × Nat × PyResult Unit)
    (h : tryBlock cfg fuel = some t) : t = (1, 0, .exn e) := by
  unfold tryBlock at h
  rw [hi] at h
  injection h with h
  exact h.symm

-- With no init and the flag up, a failing first main call ends the loop
-- after exactly that one call, the exception being the try-block outcome.
theorem tryBlock_main_error_first (cfg : WorkerCfg) (fuel : Nat) (e : String)
    (hi : cfg.init_fct = none) (hg : cfg.goFlag 0 = true)
    (hm : cfg.main_fct 0 = .error e) (t : Nat × Nat × PyResult Unit)
    (h : tryBlock cfg fuel = some t) : t = (0, 1, .exn e) := by
  unfold tryBlock at h
  rw [hi] at h
  cases fuel with
  | zero => simp [runLoop] at h
  | succ f =>
    rw [show runLoop cfg.goFlag cfg.main_fct 0 (f + 1) = some (1, .exn e) by
      unfold runLoop; rw [if_pos hg, hm]] at h
    injection h with h
    exact h.symm

-- With no init and the flag already down, the loop body never runs.
theorem tryBlock_flag_down (cfg : WorkerCfg) (fuel : Nat)
    (hi : cfg.init_fct = none) (hg : cfg.goFlag 0 = false)
    (t : Nat × Nat × PyResult Unit) (h : tryBlock cfg fuel = some t) :
    t = (0, 0, .val ()) := by
  unfold tryBlock at h
  rw [hi] at h
  cases fuel with
  | zero => simp [runLoop] at h
  | succ f =>
    rw [show runLoop cfg.goFlag cfg.main_fct 0 (f + 1) = some (0, .val ()) by
      unfold runLoop; rw [if_neg (by simp [hg])]] at h
    injection h with h
    exact h.symm

/-- Claim C4: in every completed run of WorkerThread._run, init runs exactly
once when provided (and not at all otherwise); a failing init means main
never ran and the error was logged; the exit callable runs exactly once
whenever provided, on normal exit and on exception alike; an exception from
init or main is logged and never re-raised past _run (nothing escapes when
exit itself does not raise); and a main failure on the first call ends the
loop right after that single call, with the error logged. -/
theorem worker_run_lifecycle (cfg : WorkerCfg) (fuel : Nat) (trace : RunTrace)
    (hrun : WorkerThread.runBody cfg fuel = some trace) :
    trace.initCalls = (if cfg.init_fct.isSome then 1 else 0) ∧
    trace.exitCalls = (if cfg.exit_fct.isSome then 1 else 0) ∧
    (∀ e, cfg.init_fct = some (.error e) →
      trace.mainCalls = 0 ∧ trace.logged = some e) ∧
    ((∀ e, cfg.exit_fct ≠ some (.error e)) → trace.raised = none) ∧
    (∀ e, cfg.init_fct = none → cfg.goFlag 0 = true → cfg.main_fct 0 = .error e →
      trace.mainCalls = 1 ∧ trace.logged = some e) := by
  rcases runBody_some cfg fuel trace hrun with ⟨t, htb, rfl⟩
  refine ⟨?_, mkTrace_exitCalls cfg t, ?_, mkTrace_raised_none cfg t, ?_⟩
  · rw [mkTrace_initCalls, tryBlock_fst cfg fuel t htb]
  · intro e hi
    have ht := tryBlock_init_error cfg fuel e hi t htb
    subst ht
    exact ⟨rfl, rfl⟩
  · intro e hi hg hm
    have ht := tryBlock_main_error_first cfg fuel e hi hg hm t htb
    subst ht
    exact ⟨rfl, rfl⟩

/-- Concrete run of worker_run_lifecycle: init succeeds, main throws on its
first call, exit is provided; exit still ran once and nothing escaped. -/
theorem worker_run_lifecycle_witness :
    ({ initCalls := 1, mainCalls := 1, logged := some "boom", exitCalls := 1,
       raised := none } : RunTrace).exitCalls = 1 ∧
    ({ initCalls := 1, mainCalls := 1, logged := some "boom", exitCalls := 1,
       raised := none } : RunTrace).raised = none :=
  ⟨(worker_run_lifecycle
      { init_fct := some (Except.ok ()), main_fct := fun _ => Except.error "boom",
        goFlag := fun _ => true, exit_fct := some (Except.ok ()) } 5
      { initCalls := 1, mainCalls := 1, logged := some "boom", exitCalls := 1,
        raised := none } rfl).2.1,
   (worker_run_lifecycle
      { init_fct := some (Except.ok ()), main_fct := fun _ => Except.error "boom",
        goFlag := fun _ => true, exit_fct := some (Except.ok ()) } 5
      { initCalls := 1, mainCalls := 1, logged := some "boom", exitCalls := 1,
        raised := none } rfl).2.2.2.1 (fun e h => by simp at h)⟩

/-- Claim C5: stop on a thread that is not alive is a no-op; stop on a live
thread clears the run flag and joins, blocking until the run terminated;
once the flag is cleared every next flag check ends the loop with zero
further main calls; and any terminated run — which the join waited for —
has already made its single exit call. -/
theorem stop_spec (w : WorkerObj) (cfg : WorkerCfg) (fuel : Nat) (trace : RunTrace)
    (hrun : WorkerThread.runBody cfg fuel = some trace) :
    (w.alive = false → WorkerThread.stop w = (w, false)) ∧
    (w.alive = true →
      (WorkerThread.stop w).1.goSet = false ∧ (WorkerThread.stop w).2 = true) ∧
    (∀ k, runLoop (clearGo cfg).goFlag (clearGo cfg).main_fct k 1 =
      some (0, .val ())) ∧
    trace.exitCalls = (if cfg.exit_fct.isSome then 1 else 0) := by
  rcases runBody_some cfg fuel trace hrun with ⟨t, _, rfl⟩
  refine ⟨?_, ?_, ?_, mkTrace_exitCalls cfg t⟩
  · intro h
    simp [WorkerThread.stop, h]
  · intro h
    simp [WorkerThread.stop, h]
  · intro k
    simp [runLoop, clearGo]

/-- Concrete run of stop_spec: a live worker whose flag is already down. -/
theorem stop_spec_witness :
    (WorkerThread.stop { alive := true, goSet := true }).1.goSet = false ∧
    (WorkerThread.stop { alive := true, goSet := true }).2 = true :=
  (stop_spec { alive := true, goSet := true }
    { init_fct := none, main_fct := fun _ => Except.ok (),
      goFlag := fun _ => false, exit_fct := some (Except.ok ()) } 1
    { initCalls := 0, mainCalls := 0, logged := none, exitCalls := 1,
      raised := none } rfl).2.1 rfl

/-- Claim C10: an exception raised by the exit callable is not caught by the
worker's except handler — the try covers only init and the main loop, while
exit runs in the finally — so it escapes _run; in particular with init
absent and the flag down the worker logs nothing although exit raised. -/
theorem exit_exception_escapes (cfg : WorkerCfg) (fuel : Nat) (trace : RunTrace)
    (e : String) (hexit : cfg.exit_fct = some (.error e))
    (hrun : WorkerThread.runBody cfg fuel = some trace) :
    trace.raised = some e ∧
    (cfg.init_fct = none → cfg.goFlag 0 = false → trace.logged = none) := by
  rcases runBody_some cfg fuel trace hrun with ⟨t, htb, rfl⟩
  refine ⟨mkTrace_raised_exn cfg t e hexit, ?_⟩
  intro hi hg
  have ht := tryBlock_flag_down cfg fuel hi hg t htb
  subst ht
  rfl

/-- Concrete run of exit_exception_escapes: nothing to do, exit raises, the
exception leaves _run while the log stays empty. -/
theorem exit_exception_escapes_witness :
    ({ initCalls := 0, mainCalls := 0, logged := none, exitCalls := 1,
       raised := some "boom" } : RunTrace).raised = some "boom" ∧
    ({ initCalls := 0, mainCalls := 0, logged := none, exitCalls := 1,
       raised := some "boom" } : RunTrace).logged = none :=
  ⟨(exit_exception_escapes
      { init_fct := none, main_fct := fun _ => Except.ok (),
        goFlag := fun _ => false, exit_fct := some (Except.error "boom") } 1
      { initCalls := 0, mainCalls := 0, logged := none, exitCalls := 1,
        raised := some "boom" } "boom" rfl rfl).1,
   (exit_exception_escapes
      { init_fct := none, main_fct := fun _ => Except.ok (),
        goFlag := fun _ => false, exit_fct := some (Except.error "boom") } 1
      { initCalls := 0, mainCalls := 0, logged := none, exitCalls := 1,
        raised := some "boom" } "boom" rfl rfl).2 rfl rfl⟩

end ModbusTk
